import Mathlib

/-!
Formal models of the TravelPlanningAssistant repository: the ReAct
orchestration loop of `agent.py`, the HTTP tool adapters of
`mcp_connector.py`, and the mock MCP servers (`calculator_mcp_server.py`,
`currency_mcp_server.py`, `travel_search_mcp_server.py`,
`weather_mcp_server.py`).  Python strings are modelled as Lean `String`
(lists of characters), Python floats as `ℚ`, Python `dict`s as
insertion-ordered association lists, and Python exceptions as `Except`.
All definitions are structural recursions so that they evaluate inside the
kernel.
-/

/-- Python `needle in hay` on strings (substring containment), on char
lists: true iff `needle` occurs contiguously inside `hay`. -/
def containsSub (needle : List Char) : List Char → Bool
  | [] => needle.isEmpty
  | c :: rest => needle.isPrefixOf (c :: rest) || containsSub needle rest

/-- Python `pat in s` for strings. -/
def strContains (s pat : String) : Bool := containsSub pat.data s.data

/-- Strip characters satisfying `p` from both ends (Python `str.strip`). -/
def stripBy (p : Char → Bool) (cs : List Char) : List Char :=
  ((cs.dropWhile p).reverse.dropWhile p).reverse

/-- Python `s.strip()` (whitespace from both ends). -/
def strTrim (s : String) : String := ⟨stripBy Char.isWhitespace s.data⟩

/-- Python `s.lower()` (ASCII model). -/
def strLower (s : String) : String := ⟨s.data.map Char.toLower⟩

/-- Python `s.upper()` (ASCII model). -/
def strUpper (s : String) : String := ⟨s.data.map Char.toUpper⟩

/-- Fuel-driven splitter implementing Python `s.split(sep)` for a nonempty
separator: scans left to right, cutting at each non-overlapping occurrence
of `sep`.  `fuel` is instantiated with the length of the scanned list so the
recursion is structural (the fuel never runs out at that instantiation). -/
def splitFuel (sep : List Char) : Nat → List Char → List Char → List (List Char)
  | _, acc, [] => [acc.reverse]
  | 0, acc, _ :: _ => [acc.reverse]
  | f + 1, acc, c :: rest =>
    if sep.isPrefixOf (c :: rest) then
      acc.reverse :: splitFuel sep f [] ((c :: rest).drop sep.length)
    else
      splitFuel sep f (c :: acc) rest

/-- Python `s.split(sep)` for a nonempty separator. -/
def pySplit (s sep : String) : List String :=
  (splitFuel sep.data s.data.length [] s.data).map (fun l => ⟨l⟩)

/-- Chars after the first occurrence of `sep`, `none` when `sep` does not
occur. -/
def afterFirst (sep : List Char) : List Char → Option (List Char)
  | [] => if sep.isEmpty then some [] else none
  | c :: rest =>
    if sep.isPrefixOf (c :: rest) then some ((c :: rest).drop sep.length)
    else afterFirst sep rest

/-- Chars before the first occurrence of `sep` (the whole list when `sep`
does not occur). -/
def takeUntil (sep : List Char) : List Char → List Char
  | [] => []
  | c :: rest =>
    if sep.isPrefixOf (c :: rest) then [] else c :: takeUntil sep rest

/-- Python `", ".join(xs)`. -/
def joinSep (sep : String) : List String → String
  | [] => ""
  | [x] => x
  | x :: y :: rest => x ++ sep ++ joinSep sep (y :: rest)

/-- Digits of a numeral to a natural number. -/
def digitsToNat (cs : List Char) : Nat :=
  cs.foldl (fun n c => 10 * n + (c.toNat - 48)) 0

/-- Python `int(s)` restricted to an optional sign followed by ASCII
digits (the model omits underscores and Unicode digits). -/
def pyToInt (s : String) : Option Int :=
  match s.data with
  | [] => none
  | '-' :: rest =>
    if rest ≠ [] ∧ rest.all Char.isDigit then some (-(digitsToNat rest : Int)) else none
  | '+' :: rest =>
    if rest ≠ [] ∧ rest.all Char.isDigit then some (digitsToNat rest : Int) else none
  | l =>
    if l.all Char.isDigit then some (digitsToNat l : Int) else none

/-!
## calculator_mcp_server.py
`safe_eval` removes spaces, checks the expression against
`^[\d+\-*/().]+$`, and evaluates it with Python `eval`; `ZeroDivisionError`
is reported as "Division by zero", other evaluation failures as
"Calculation error: ...".  Two regex subtleties are part of the gate's
semantics: Python's `$` also matches just before a single newline at the
very end of the string (so one trailing newline is tolerated and then
accepted by `eval`), and Python's `\d` matches Unicode decimal digits
beyond ASCII.  The embedding carries the first exactly; for the second it
models `\d` on ASCII only, so gate theorems are stated for ASCII
offending characters, where the model and CPython agree.  The evaluator
below implements Python's arithmetic expression grammar over the admitted
character set (`+ - * /`, parentheses, unary signs, integer and decimal
literals), with exact rationals in place of IEEE floats.
-/

/-- Characters of the regex class `[\d+\-*/().]`.  `\d` is modelled for
ASCII; Python's `\d` additionally matches non-ASCII Unicode decimal
digits, which this embedding does not carry — theorems about the gate
therefore only ever demand `allowedChar c = false` of ASCII characters
`c`, on which the class and this predicate coincide. -/
def allowedChar (c : Char) : Bool :=
  c.isDigit || c == '+' || c == '-' || c == '*' || c == '/' ||
    c == '(' || c == ')' || c == '.'

/-- Python `expression.replace(" ", "")`. -/
def removeSpaces (s : String) : String := ⟨s.data.filter (fun c => c != ' ')⟩

/-- The regex gate `re.match(r'^[\d+\-*/().]+$', e)`: one or more class
characters spanning the string, where Python's `$` matches at the end of
the string or just before a newline at the very end — so a single
trailing newline is tolerated (`"1+2\n"` passes the gate). -/
def regexOk (cs : List Char) : Bool :=
  (!cs.isEmpty && cs.all allowedChar) ||
    (cs.getLast? == some '\n' && !cs.dropLast.isEmpty && cs.dropLast.all allowedChar)

/-- Errors arising while evaluating an arithmetic expression. -/
inductive EvalErr where
  | divZero
  | syntaxErr (msg : String)
deriving DecidableEq

/-- An unnormalized exact fraction.  The evaluator works with these instead
of `ℚ` so that its runs reduce inside the kernel; every fraction it builds
has a nonzero denominator, and `fracToRat` reads off the rational value at
the boundary. -/
structure Frac where
  num : Int
  den : Int
deriving DecidableEq

/-- The rational value of a fraction. -/
def fracToRat (f : Frac) : ℚ := (f.num : ℚ) / (f.den : ℚ)

/-- Fraction addition. -/
def fadd (a b : Frac) : Frac := ⟨a.num * b.den + b.num * a.den, a.den * b.den⟩

/-- Fraction subtraction. -/
def fsub (a b : Frac) : Frac := ⟨a.num * b.den - b.num * a.den, a.den * b.den⟩

/-- Fraction multiplication. -/
def fmul (a b : Frac) : Frac := ⟨a.num * b.num, a.den * b.den⟩

/-- Fraction division (the caller checks the divisor is nonzero). -/
def fdiv (a b : Frac) : Frac := ⟨a.num * b.den, a.den * b.num⟩

/-- Fraction negation. -/
def fneg (a : Frac) : Frac := ⟨-a.num, a.den⟩

/-- Tokens of the restricted arithmetic grammar. -/
inductive Tok where
  | num (q : Frac)
  | plus
  | minus
  | star
  | slash
  | lparen
  | rparen
deriving DecidableEq

/-- Parse a numeric literal made of digits and dots: at most one dot and at
least one digit (Python rejects `"."` and `"1.2.3"` as syntax errors).
`"12.5"` becomes `125/10`. -/
def parseNumLit (cs : List Char) : Except EvalErr Frac :=
  if (cs.filter (fun c => c == '.')).length > 1 then
    .error (.syntaxErr "invalid syntax")
  else
    let ip := cs.takeWhile Char.isDigit
    let rest := cs.dropWhile Char.isDigit
    let fp := match rest with
      | '.' :: t => t
      | _ => []
    if ip.isEmpty ∧ fp.isEmpty then .error (.syntaxErr "invalid syntax")
    else
      .ok ⟨(digitsToNat ip : Int) * (10 : Int) ^ fp.length + (digitsToNat fp : Int),
        (10 : Int) ^ fp.length⟩

/-- Map a single operator/parenthesis character to its token. -/
def symTok (c : Char) : Except EvalErr Tok :=
  if c == '+' then .ok .plus
  else if c == '-' then .ok .minus
  else if c == '*' then .ok .star
  else if c == '/' then .ok .slash
  else if c == '(' then .ok .lparen
  else if c == ')' then .ok .rparen
  else .error (.syntaxErr "invalid syntax")

/-- Tokenizer: `acc` accumulates the reversed characters of a numeric
literal in progress; it is flushed at each non-numeral character. -/
def tokenizeAux (acc : List Char) : List Char → Except EvalErr (List Tok)
  | [] =>
    if acc.isEmpty then .ok []
    else
      match parseNumLit acc.reverse with
      | .ok q => .ok [.num q]
      | .error e => .error e
  | c :: rest =>
    if c.isDigit || c == '.' then tokenizeAux (c :: acc) rest
    else
      match symTok c with
      | .error e => .error e
      | .ok t =>
        if acc.isEmpty then
          match tokenizeAux [] rest with
          | .ok ts => .ok (t :: ts)
          | .error e => .error e
        else
          match parseNumLit acc.reverse with
          | .error e => .error e
          | .ok q =>
            match tokenizeAux [] rest with
            | .ok ts => .ok (.num q :: t :: ts)
            | .error e => .error e

/-- Parser states of a recursive-descent parser for Python's arithmetic
grammar: `expr := term (('+'|'-') term)*`, `term := factor (('*'|'/')
factor)*`, `factor := ('+'|'-') factor | number | '(' expr ')'`.  The
`Rest` states carry the value accumulated so far in an operator chain. -/
inductive PState where
  | pexpr
  | pexprRest (acc : Frac)
  | pterm
  | ptermRest (acc : Frac)
  | pfactor

/-- One-function recursive-descent parser/evaluator; the fuel decreases on
every recursive call and is instantiated generously, so it never runs out
on expressions the calculator receives.  A division whose divisor has
numerator zero (the value zero, denominators being nonzero) raises
`ZeroDivisionError` as Python does. -/
def parseP : Nat → PState → List Tok → Except EvalErr (Frac × List Tok)
  | 0, _, _ => .error (.syntaxErr "recursion limit")
  | f + 1, .pexpr, ts =>
    match parseP f .pterm ts with
    | .ok (v, ts') => parseP f (.pexprRest v) ts'
    | .error e => .error e
  | f + 1, .pexprRest v, ts =>
    match ts with
    | .plus :: ts' =>
      match parseP f .pterm ts' with
      | .ok (w, ts2) => parseP f (.pexprRest (fadd v w)) ts2
      | .error e => .error e
    | .minus :: ts' =>
      match parseP f .pterm ts' with
      | .ok (w, ts2) => parseP f (.pexprRest (fsub v w)) ts2
      | .error e => .error e
    | _ => .ok (v, ts)
  | f + 1, .pterm, ts =>
    match parseP f .pfactor ts with
    | .ok (v, ts') => parseP f (.ptermRest v) ts'
    | .error e => .error e
  | f + 1, .ptermRest v, ts =>
    match ts with
    | .star :: ts' =>
      match parseP f .pfactor ts' with
      | .ok (w, ts2) => parseP f (.ptermRest (fmul v w)) ts2
      | .error e => .error e
    | .slash :: ts' =>
      match parseP f .pfactor ts' with
      | .ok (w, ts2) =>
        if w.num = 0 then .error .divZero else parseP f (.ptermRest (fdiv v w)) ts2
      | .error e => .error e
    | _ => .ok (v, ts)
  | f + 1, .pfactor, ts =>
    match ts with
    | .num q :: ts' => .ok (q, ts')
    | .plus :: ts' => parseP f .pfactor ts'
    | .minus :: ts' =>
      match parseP f .pfactor ts' with
      | .ok (v, ts2) => .ok (fneg v, ts2)
      | .error e => .error e
    | .lparen :: ts' =>
      match parseP f .pexpr ts' with
      | .ok (v, .rparen :: ts2) => .ok (v, ts2)
      | .ok _ => .error (.syntaxErr "invalid syntax")
      | .error e => .error e
    | _ => .error (.syntaxErr "invalid syntax")

/-- Python `eval` on the restricted character set: tokenize, parse a full
expression, require the tokens to be exhausted.  CPython's `eval` accepts
trailing newlines after the expression (its tokenizer closes the input
with NEWLINE and ENDMARKER), so they are dropped first; the only
whitespace that can reach `eval` through `safe_eval`'s gate is a single
trailing newline. -/
def evalExpr (cs : List Char) : Except EvalErr Frac :=
  match tokenizeAux [] ((cs.reverse.dropWhile (fun c => c == '\n')).reverse) with
  | .error e => .error e
  | .ok ts =>
    match parseP (4 * cs.length + 16) .pexpr ts with
    | .ok (v, []) => .ok v
    | .ok _ => .error (.syntaxErr "invalid syntax")
    | .error e => .error e

/-- `safe_eval` of calculator_mcp_server.py: returns the
`(result, success, error)` triple. -/
def safe_eval (expression : String) : Option ℚ × Bool × Option String :=
  if regexOk (removeSpaces expression).data then
    match evalExpr (removeSpaces expression).data with
    | .ok v => (some (fracToRat v), true, none)
    | .error .divZero => (none, false, some "Division by zero")
    | .error (.syntaxErr m) => (none, false, some ("Calculation error: " ++ m))
  else
    (none, false, some "Invalid characters in expression")

/-- Response model of the `/tools/calculate` endpoint. -/
structure CalculatorResponse where
  expression : String
  result : ℚ
  success : Bool
  error : Option String
deriving DecidableEq

/-- `calculate` of calculator_mcp_server.py: `result` is 0 when evaluation
did not succeed. -/
def calculate (expression : String) : CalculatorResponse :=
  match safe_eval expression with
  | (r, s, err) => ⟨expression, if s then r.getD 0 else 0, s, err⟩

/-!
## currency_mcp_server.py
Rates are the fixed `EXCHANGE_RATES` table (base USD); unknown codes
default to `1.0`.  Python `round(x, n)` is round-half-to-even; `rnd` below
implements it exactly on `ℚ`.
-/

/-- Round to the nearest integer, ties to even (Python `round`). -/
def rnd (x : ℚ) : ℤ :=
  if x - ⌊x⌋ = 1 / 2 then (if 2 ∣ ⌊x⌋ then ⌊x⌋ else ⌊x⌋ + 1) else ⌊x + 1 / 2⌋

/-- Python `round(x, 2)`. -/
def round2 (x : ℚ) : ℚ := (rnd (100 * x) : ℚ) / 100

/-- Python `round(x, 4)`. -/
def round4 (x : ℚ) : ℚ := (rnd (10000 * x) : ℚ) / 10000

/-- The `EXCHANGE_RATES` table of currency_mcp_server.py. -/
def EXCHANGE_RATES : List (String × ℚ) :=
  [("USD", 1), ("EUR", 92 / 100), ("GBP", 79 / 100), ("JPY", 1495 / 10),
   ("CAD", 135 / 100), ("AUD", 152 / 100), ("CHF", 88 / 100),
   ("CNY", 724 / 100), ("INR", 8312 / 100), ("MAD", 995 / 100),
   ("AED", 367 / 100), ("MXN", 1705 / 100), ("BRL", 492 / 100),
   ("ZAR", 1845 / 100), ("SEK", 1035 / 100), ("NOK", 1072 / 100),
   ("DKK", 687 / 100), ("SGD", 134 / 100), ("HKD", 782 / 100),
   ("KRW", 13055 / 10), ("TRY", 3215 / 100), ("RUB", 925 / 10),
   ("PLN", 395 / 100), ("THB", 3485 / 100)]

/-- `EXCHANGE_RATES.get(code, 1.0)`. -/
def rateOf (code : String) : ℚ := (EXCHANGE_RATES.lookup code).getD 1

/-- Response model of the `/tools/convert_currency` endpoint. -/
structure CurrencyResponse where
  original_amount : ℚ
  original_currency : String
  converted_amount : ℚ
  converted_currency : String
  exchange_rate : ℚ
deriving DecidableEq

/-- `convert_currency` of currency_mcp_server.py: route through USD,
round the amount to 2 and the rate to 4 decimal places. -/
def convert_currency (amount : ℚ) (from_currency to_currency : String) : CurrencyResponse :=
  let from_curr := strUpper from_currency
  let to_curr := strUpper to_currency
  let from_rate := rateOf from_curr
  let to_rate := rateOf to_curr
  ⟨amount, from_curr, round2 (amount / from_rate * to_rate), to_curr,
    round4 (to_rate / from_rate)⟩

/-- Convert `A` from `X` to `Y`, then convert the result back from `Y` to
`X` (the round-trip of the claim). -/
def currencyRoundTrip (A : ℚ) (X Y : String) : ℚ :=
  (convert_currency ((convert_currency A X Y).converted_amount) Y X).converted_amount

/-!
## travel_search_mcp_server.py and weather_mcp_server.py
Both normalize the destination with `.lower().strip()`, try the fixed
table (search: exact key first, then two-way substring containment in
insertion order; weather: containment only), and fall back to a generic
default.  The weather season is derived from the month by `get_season`;
the month itself comes from the request date or the wall clock, which the
model takes as a parameter.
-/

/-- One destination record of `DESTINATIONS_DB`. -/
structure DestinationInfo where
  attractions : List String
  activities : List String
  landmarks : List String
deriving DecidableEq

/-- The `DESTINATIONS_DB` table, in insertion order. -/
def DESTINATIONS_DB : List (String × DestinationInfo) :=
  [("paris",
    ⟨["Eiffel Tower", "Louvre Museum", "Notre-Dame Cathedral", "Arc de Triomphe"],
     ["Seine River Cruise", "Wine Tasting", "Cooking Classes", "Shopping on Champs-Élysées"],
     ["Sacré-Cœur", "Versailles Palace", "Panthéon"]⟩),
   ("barcelona",
    ⟨["Sagrada Familia", "Park Güell", "Gothic Quarter", "Casa Batlló"],
     ["Beach Activities", "Tapas Tours", "Flamenco Shows", "Wine Tours"],
     ["La Rambla", "Camp Nou", "Montjuïc"]⟩),
   ("tokyo",
    ⟨["Tokyo Tower", "Senso-ji Temple", "Imperial Palace", "Shibuya Crossing"],
     ["Sushi Making Class", "Tea Ceremony", "Sumo Wrestling", "Karaoke"],
     ["Mount Fuji", "Meiji Shrine", "Tokyo Skytree"]⟩),
   ("new york",
    ⟨["Statue of Liberty", "Central Park", "Times Square", "Empire State Building"],
     ["Broadway Shows", "Museum Tours", "Food Tours", "Shopping"],
     ["Brooklyn Bridge", "One World Trade Center", "Rockefeller Center"]⟩),
   ("london",
    ⟨["Big Ben", "Tower of London", "British Museum", "Buckingham Palace"],
     ["Thames River Cruise", "Afternoon Tea", "West End Shows", "Pub Tours"],
     ["London Eye", "Tower Bridge", "Westminster Abbey"]⟩),
   ("morocco",
    ⟨["Marrakech Medina", "Hassan II Mosque", "Jardin Majorelle", "Bahia Palace"],
     ["Desert Safari", "Hammam Experience", "Cooking Classes", "Souk Shopping"],
     ["Chefchaouen", "Fes Medina", "Atlas Mountains"]⟩),
   ("sidi bennour",
    ⟨["Local Markets", "Traditional Architecture", "Agricultural Sites"],
     ["Cultural Tours", "Local Cuisine Tasting", "Countryside Walks"],
     ["Historic Center", "Regional Farmlands"]⟩)]

/-- Response model of the `/tools/search_destination` endpoint. -/
structure DestinationResponse where
  destination : String
  attractions : List String
  activities : List String
  landmarks : List String
deriving DecidableEq

/-- `search_destination` after the destination has been normalized to
`norm` (the first argument is the raw request destination echoed back). -/
def searchWithNorm (dest norm : String) : DestinationResponse :=
  match DESTINATIONS_DB.lookup norm with
  | some data => ⟨dest, data.attractions, data.activities, data.landmarks⟩
  | none =>
    match DESTINATIONS_DB.find?
        (fun p => containsSub p.1.data norm.data || containsSub norm.data p.1.data) with
    | some p => ⟨dest, p.2.attractions, p.2.activities, p.2.landmarks⟩
    | none =>
      ⟨dest, ["Local Museums", "City Center", "Historical Sites"],
        ["Cultural Tours", "Local Cuisine", "Walking Tours", "Shopping"],
        ["Main Square", "Local Parks", "Historic Buildings"]⟩

/-- `search_destination` of travel_search_mcp_server.py. -/
def search_destination (dest : String) : DestinationResponse :=
  searchWithNorm dest (strTrim (strLower dest))

/-- One season's weather record (`rec'` models the `"rec"` key). -/
structure WeatherEntry where
  temp : String
  conditions : String
  rec' : String
deriving DecidableEq

/-- One destination's four-season table. -/
structure SeasonTable where
  winter : WeatherEntry
  spring : WeatherEntry
  summer : WeatherEntry
  fall : WeatherEntry
deriving DecidableEq

/-- The `"paris"` entry of `WEATHER_DB`. -/
def parisSeasons : SeasonTable :=
  ⟨⟨"5-10°C", "Cold and rainy", "Bring warm coat and umbrella"⟩,
   ⟨"12-18°C", "Mild and pleasant", "Light jacket recommended"⟩,
   ⟨"20-28°C", "Warm and sunny", "Perfect for outdoor activities"⟩,
   ⟨"10-16°C", "Cool and crisp", "Bring layers"⟩⟩

/-- The `WEATHER_DB` table, in insertion order. -/
def WEATHER_DB : List (String × SeasonTable) :=
  [("paris", parisSeasons),
   ("barcelona",
    ⟨⟨"10-15°C", "Mild and sunny", "Light jacket sufficient"⟩,
     ⟨"15-22°C", "Pleasant", "Great for beach and sightseeing"⟩,
     ⟨"25-30°C", "Hot and sunny", "Sunscreen and hydration essential"⟩,
     ⟨"18-24°C", "Warm", "Ideal weather for all activities"⟩⟩),
   ("tokyo",
    ⟨⟨"2-10°C", "Cold and dry", "Heavy coat needed"⟩,
     ⟨"10-18°C", "Cherry blossom season", "Perfect time to visit"⟩,
     ⟨"25-32°C", "Hot and humid", "Stay hydrated, indoor activities recommended"⟩,
     ⟨"15-22°C", "Pleasant", "Beautiful autumn colors"⟩⟩),
   ("morocco",
    ⟨⟨"12-20°C", "Mild and pleasant", "Light layers recommended"⟩,
     ⟨"18-26°C", "Warm and sunny", "Great for desert tours"⟩,
     ⟨"28-38°C", "Very hot", "Early morning activities, stay hydrated"⟩,
     ⟨"20-28°C", "Warm", "Ideal travel season"⟩⟩)]

/-- `get_season` of weather_mcp_server.py. -/
def get_season (month : Int) : String :=
  if month = 12 ∨ month = 1 ∨ month = 2 then "winter"
  else if month = 3 ∨ month = 4 ∨ month = 5 then "spring"
  else if month = 6 ∨ month = 7 ∨ month = 8 then "summer"
  else "fall"

/-- Index a season table by the season name.  In Python this is a dict
lookup `WEATHER_DB[key][season]`; `get_season` only ever produces the
four keys, so the catch-all branch coincides with `"fall"`. -/
def seasonData (t : SeasonTable) (s : String) : WeatherEntry :=
  if s = "winter" then t.winter
  else if s = "spring" then t.spring
  else if s = "summer" then t.summer
  else t.fall

/-- Response model of the `/tools/get_weather` endpoint. -/
structure WeatherResponse where
  destination : String
  date : Option String
  temperature : String
  conditions : String
  recommendation : String
deriving DecidableEq

/-- `get_weather` after normalization: `month` models the month derived
from the request date (or the current date when absent/unparseable);
calendar-date parsing itself is outside the embedding. -/
def weatherWithNorm (dest : String) (date : Option String) (month : Int)
    (norm : String) : WeatherResponse :=
  match WEATHER_DB.find?
      (fun p => containsSub p.1.data norm.data || containsSub norm.data p.1.data) with
  | some p =>
    let w := seasonData p.2 (get_season month)
    ⟨dest, date, w.temp, w.conditions, w.rec'⟩
  | none =>
    ⟨dest, date, "15-25°C", "Generally pleasant", "Check local forecast before departure"⟩

/-- `get_weather` of weather_mcp_server.py. -/
def get_weather (dest : String) (date : Option String) (month : Int) : WeatherResponse :=
  weatherWithNorm dest date month (strTrim (strLower dest))

/-!
## mcp_connector.py
Each LangChain tool wraps one HTTP endpoint.  The HTTP layer is modelled
as a function producing an `HttpOutcome`: either the request raised
(connection error / timeout) or a response arrived with a status code and
a parsed body.  Every adapter catches all exceptions and turns every
failure into an `"Error: ..."` string — an adapter never raises.
-/

/-- Outcome of one `requests.post` call as seen by an adapter. -/
inductive HttpOutcome (β : Type) where
  | exn (msg : String)
  | response (status : Nat) (body : β)

/-- Parsed JSON body of a successful `/tools/estimate_budget` response. -/
structure BudgetBody where
  destination : String
  days : Int
  estimated_budget : ℚ

/-- Render a rational with two decimal places (Python `f"{x:.2f}"`,
round-half-even model). -/
def fmt2 (q : ℚ) : String :=
  (if rnd (100 * q) < 0 then "-" else "") ++
    toString ((rnd (100 * q)).natAbs / 100) ++ "." ++
    (if (rnd (100 * q)).natAbs % 100 < 10 then "0" else "") ++
    toString ((rnd (100 * q)).natAbs % 100)

/-- The `estimate_budget` tool of mcp_connector.py (lines 59-80): split
the input on commas, require exactly two parts, parse the day count, post
to the budget server, and format the reply; every failure path returns an
`"Error: ..."` string instead of raising. -/
def estimate_budget (http : String → Int → HttpOutcome BudgetBody) (input_str : String) : String :=
  let parts := pySplit input_str ","
  if parts.length ≠ 2 then "Error: Use format 'destination,days'"
  else
    match pyToInt (strTrim (parts.getD 1 "")) with
    | none =>
      "Error: invalid literal for int() with base 10: '" ++ strTrim (parts.getD 1 "") ++ "'"
    | some days =>
      match http (strTrim (parts.getD 0 "")) days with
      | .exn e => "Error: " ++ e
      | .response status body =>
        if status = 200 then
          "Budget: $" ++ fmt2 body.estimated_budget ++ " USD for " ++
            toString body.days ++ " days in " ++ body.destination
        else "Error: Status " ++ toString status

/-!
## agent.py — the ReAct orchestration loop
`ReactAgent.invoke` drives an opaque completion capability
(`llm : String → String`) through the loop of lines 144-226.  A registered
tool is a name, a description and a behavior `String → Except String
String`: `.error` models the call raising (the loop's `except` branch),
`.ok` a normally returned observation string.  Python's
`{tool.name: tool}` dict is an insertion-ordered map with later duplicate
names replacing earlier values in place; `set`/`dict` iteration order is
modelled by list order.
-/

/-- A registered tool: `run` models `tool.run`, which may raise. -/
structure Tool where
  name : String
  description : String
  run : String → Except String String

/-- One record of `tool_calls_log`. -/
structure LogEntry where
  iteration : Nat
  tool : String
  input : String
  result : String
deriving DecidableEq

/-- The loop's mutable state: `tools_used`, `tool_results`,
`tool_calls_log`, `required_tools` and the growing `full_prompt`. -/
structure RunState where
  toolsUsed : List String
  toolResults : List (String × String)
  callLog : List LogEntry
  requiredTools : List String
  prompt : String
deriving DecidableEq

/-- Result of one loop iteration: either `invoke` returns with an output,
or the loop continues with an updated state. -/
inductive StepOut where
  | done (output : String)
  | next (st : RunState)
deriving DecidableEq

/-- The value returned by `ReactAgent.invoke`. -/
structure AgentResult where
  input : String
  output : String
  toolCalls : List LogEntry
deriving DecidableEq

/-- Insert-or-replace into an insertion-ordered dict (`d[k] = v`). -/
def dictInsert (k v : String) : List (String × String) → List (String × String)
  | [] => [(k, v)]
  | (k', v') :: rest => if k' = k then (k, v) :: rest else (k', v') :: dictInsert k v rest

/-- Replace-in-place-or-append used to build `{tool.name: tool}`. -/
def upsertTool : List Tool → Tool → List Tool
  | [], t => [t]
  | u :: rest, t => if u.name = t.name then t :: rest else u :: upsertTool rest t

/-- The tool dict `{tool.name: tool for tool in tools}`. -/
def buildToolDict (ts : List Tool) : List Tool := ts.foldl upsertTool []

/-- Case-insensitive prefix test (`pat` is given lowercased). -/
def ciIsPrefix : List Char → List Char → Bool
  | [], _ => true
  | _ :: _, [] => false
  | p :: ps, c :: cs => p == c.toLower && ciIsPrefix ps cs

/-- A regex `\w` word character (ASCII model). -/
def isWordChar (c : Char) : Bool := c.isAlphanum || c == '_'

/-- `re.search(r'ACTION:\s*(\w+)', response, re.IGNORECASE)`: at each
case-insensitive occurrence of `ACTION:`, skip whitespace and capture a
maximal nonempty word-character run; otherwise keep scanning. -/
def findActionName : List Char → Option String
  | [] => none
  | c :: rest =>
    if ciIsPrefix "action:".data (c :: rest) then
      if (((c :: rest).drop 7).dropWhile Char.isWhitespace).takeWhile isWordChar = [] then
        findActionName rest
      else
        some ⟨(((c :: rest).drop 7).dropWhile Char.isWhitespace).takeWhile isWordChar⟩
    else findActionName rest

/-- Does the lazy group of the `INPUT` regex stop before `rest`?  The
lookahead is `(?=\n|FINAL|$)`, `FINAL` case-insensitively. -/
def stopHere (rest : List Char) : Bool :=
  rest.isEmpty || rest.head? == some '\n' || ciIsPrefix "final".data rest

/-- The lazy capture `(.+?)`: the shortest nonempty prefix after which the
lookahead holds (the whole list when it never does). -/
def lazyTake : List Char → List Char
  | [] => []
  | c :: rest => if stopHere rest then [c] else c :: lazyTake rest

/-- Capture after one `INPUT:` occurrence: greedy `\s*`, then the lazy
group; when only whitespace follows, the engine backtracks one whitespace
character into the group; when nothing follows, there is no match here. -/
def inputAfter (after : List Char) : Option (List Char) :=
  match after.dropWhile Char.isWhitespace with
  | [] =>
    match (after.takeWhile Char.isWhitespace).reverse with
    | [] => none
    | w :: _ => some [w]
  | b :: bs => some (lazyTake (b :: bs))

/-- `re.search(r'INPUT:\s*(.+?)(?=\n|FINAL|$)', response, re.DOTALL |
re.IGNORECASE)`: first case-insensitive `INPUT:` occurrence admitting a
capture. -/
def findInput : List Char → Option String
  | [] => none
  | c :: rest =>
    if ciIsPrefix "input:".data (c :: rest) then
      match inputAfter ((c :: rest).drop 6) with
      | some p => some ⟨p⟩
      | none => findInput rest
    else findInput rest

/-- The characters of Python `tool_input.strip('` \n\'"')` (backtick,
space, newline, single quote, double quote). -/
def stripSetChars : List Char := [Char.ofNat 96, ' ', '\n', Char.ofNat 39, '"']

/-- `tool_input` as cleaned on lines 164-167 of agent.py. -/
def parsedToolInput (response : String) : String :=
  ⟨stripBy (fun c => stripSetChars.contains c)
    (stripBy Char.isWhitespace ((findInput response.data).getD "").data)⟩

/-- The fixed priority order of `_suggest_next_tool`. -/
def canonicalOrder : List String :=
  ["search_destination", "estimate_budget", "get_weather", "convert_currency", "calculate"]

/-- `_suggest_next_tool` (its `tools_used`/`user_request` parameters are
unused in the source): first canonical tool still required, else the first
remaining tool, else `None`. -/
def suggestNextTool (required : List String) : Option String :=
  match canonicalOrder.find? (fun t => required.contains t) with
  | some t => some t
  | none => required.head?

/-- Correction appended when the model re-requests an already-called tool
(line 172). -/
def alreadyCalledMsg (action : String) (required : List String) : String :=
  "\n\nError: You already called '" ++ action ++
    "'. You cannot call the same tool twice.\nRemaining tools: " ++
    joinSep ", " required ++ "\n\nCall a DIFFERENT tool now:"

/-- Correction appended for an unregistered tool name (line 203). -/
def unknownToolMsg (action : String) (tools : List Tool) : String :=
  "\n\nError: Unknown tool '" ++ action ++ "'. Available: " ++
    joinSep ", " (tools.map Tool.name) ++ "\nTry again with a valid tool."

/-- Correction appended in the `except` branch (line 206): parse failure
or a raising tool call. -/
def parseErrorMsg : String :=
  "\n\nError parsing. You must use this exact format:\nACTION: tool_name\nINPUT: value\n\nTry again."

/-- Observation appended when all tools have been called (line 196). -/
def allDoneMsg (result : String) (toolResults : List (String × String)) : String :=
  "\n\nObservation: " ++ result ++
    "\n\n✅ EXCELLENT! You have used ALL 5 required tools.\n\nALL TOOL RESULTS:\n" ++
    joinSep "\n" (toolResults.map (fun p => p.1 ++ ": " ++ p.2)) ++
    "\n\nNow you MUST provide your FINAL ANSWER using ONLY the actual data above. DO NOT use placeholders.\n\nFINAL ANSWER:"

/-- Observation appended while tools remain (line 201). -/
def nextToolMsg (result : String) (required : List String) : String :=
  "\n\nObservation: " ++ result ++ "\n\n✅ Good! Remaining tools: " ++
    joinSep ", " required ++ "\n\nNow call '" ++
    (suggestNextTool required).getD "None" ++ "' next:\nACTION: " ++
    (suggestNextTool required).getD "None" ++ "\nINPUT:"

/-- Correction appended when the response has no action format and tools
remain (line 211). -/
def notAllMsg (response : String) (required : List String) : String :=
  "\n\nYour response: " ++ response ++
    "\n\nERROR: You have NOT called all tools yet. Missing: " ++
    joinSep ", " required ++
    "\n\nYou MUST call a tool using:\nACTION: tool_name\nINPUT: value\n\nCall the next required tool now:"

/-- The state after a dispatch whose `tool.run` returned normally (lines
180-201): record the observation, retire the tool, log the call, and
append the fitting observation text. -/
def dispatchUpdate (iteration : Nat) (st : RunState) (action input result : String) : RunState :=
  { toolsUsed := st.toolsUsed ++ [action]
    toolResults := dictInsert action result st.toolResults
    callLog := st.callLog ++ [⟨iteration + 1, action, input, result⟩]
    requiredTools := st.requiredTools.erase action
    prompt := st.prompt ++
      (if (st.requiredTools.erase action).isEmpty then
        allDoneMsg result (dictInsert action result st.toolResults)
      else
        nextToolMsg result (st.requiredTools.erase action)) }

/-- One iteration of the ReAct loop (lines 148-217) applied to the
response text: final-answer check first, then the action branch (unknown
tool, duplicate tool, raising call, successful call), then the
no-action-format branch. -/
def step (tools : List Tool) (iteration : Nat) (st : RunState) (response : String) : StepOut :=
  if strContains response "FINAL ANSWER:" then
    .done (strTrim ((pySplit response "FINAL ANSWER:").getD 1 ""))
  else if strContains response "ACTION:" && strContains response "INPUT:" then
    match findActionName response.data with
    | none => .next { st with prompt := st.prompt ++ parseErrorMsg }
    | some action =>
      match tools.find? (fun t => t.name == action) with
      | some t =>
        if action ∈ st.requiredTools then
          match t.run (parsedToolInput response) with
          | .ok result => .next (dispatchUpdate iteration st action (parsedToolInput response) result)
          | .error _ => .next { st with prompt := st.prompt ++ parseErrorMsg }
        else
          .next { st with prompt := st.prompt ++ alreadyCalledMsg action st.requiredTools }
      | none => .next { st with prompt := st.prompt ++ unknownToolMsg action tools }
  else
    if !strContains (strUpper response) "FINAL ANSWER" && st.requiredTools.length > 0 then
      .next { st with prompt := st.prompt ++ notAllMsg response st.requiredTools }
    else if st.requiredTools.length = 0 then
      .done response
    else
      .next { st with prompt := st.prompt ++ "\n\n" ++ response ++ "\n\nNow call the next required tool." }

/-- The fallback summary built on lines 221-223. -/
def summaryPieces : List (String × String) → String
  | [] => ""
  | (t, r) :: rest => "\n" ++ t ++ ": " ++ r ++ "\n" ++ summaryPieces rest

/-- The value returned when the iteration budget is exhausted (lines
219-226). -/
def fallbackAnswer (toolResults : List (String × String)) : String :=
  if toolResults.isEmpty then "Could not complete within iteration limit."
  else
    "Could not generate complete answer in time, but gathered:\nBased on the tools used:\n" ++
      summaryPieces toolResults

/-- Run the loop from a state with `fuel` iterations left.  Returns the
output, the state at the moment of return (whose `callLog` is the returned
log), and the number of completion-capability calls made. -/
def runFrom (tools : List Tool) (llm : String → String) :
    Nat → Nat → RunState → String × RunState × Nat
  | 0, _, st => (fallbackAnswer st.toolResults, st, 0)
  | fuel + 1, iteration, st =>
    match step tools iteration st (llm st.prompt) with
    | .done out => (out, st, 1)
    | .next st' =>
      let r := runFrom tools llm fuel (iteration + 1) st'
      (r.1, r.2.1, r.2.2 + 1)

/-- The states visited by the loop, in order, ending at the state at the
moment of return or exhaustion. -/
def traceFrom (tools : List Tool) (llm : String → String) :
    Nat → Nat → RunState → List RunState
  | 0, _, st => [st]
  | fuel + 1, iteration, st =>
    match step tools iteration st (llm st.prompt) with
    | .done _ => [st]
    | .next st' => st :: traceFrom tools llm fuel (iteration + 1) st'

/-- The module-level system prompt of agent.py (lines 35-79). -/
def systemPromptText : String :=
  "\nYou are a travel planning agent that MUST use ALL AVAILABLE TOOLS for every request.\n\nMANDATORY: You MUST call ALL 5 tools before providing your final answer:\n1. search_destination - Get attractions and activities\n2. estimate_budget - Calculate trip cost\n3. get_weather - Check weather conditions\n4. convert_currency - Convert budget to another currency (use EUR or MAD)\n5. calculate - Do arithmetic (e.g., calculate per-day cost)\n\nTOOL USAGE FORMAT (EXACT format required):\nACTION: tool_name\nINPUT: tool_input\n\nEXAMPLE for \"Plan a 5-day trip to Barcelona\":\n\nACTION: search_destination\nINPUT: Barcelona\n\n[wait for result]\n\nACTION: estimate_budget\nINPUT: Barcelona,5\n\n[wait for result]\n\nACTION: get_weather\nINPUT: Barcelona\n\n[wait for result]\n\nACTION: convert_currency\nINPUT: 1000,USD,EUR\n\n[wait for result]\n\nACTION: calculate\nINPUT: 1000/5\n\n[wait for result]\n\nFINAL ANSWER: [Complete plan using ALL tool results]\n\nREMEMBER: You MUST use ALL 5 tools. Do not skip any tool.\n"

/-- The initial `full_prompt` of lines 125-141. -/
def initialPrompt (tools : List Tool) (userRequest : String) : String :=
  systemPromptText ++ "\n\nAvailable tools:\n" ++
    joinSep "\n" (tools.map (fun t => "- " ++ t.name ++ ": " ++ t.description)) ++
    "\n\nUser question: " ++ userRequest ++
    "\n\nMANDATORY SEQUENCE - Call tools in this order:\n1. search_destination - First\n2. estimate_budget - Second  \n3. get_weather - Third\n4. convert_currency - Fourth\n5. calculate - Fifth (then FINAL ANSWER)\n\nStart NOW with search_destination:\nACTION: search_destination\nINPUT:"

/-- The loop state at entry: nothing used, everything required. -/
def initState (dict : List Tool) (userRequest : String) : RunState :=
  ⟨[], [], [], dict.map Tool.name, initialPrompt dict userRequest⟩

/-- `self.max_iterations` (line 89). -/
def max_iterations : Nat := 15

/-- `ReactAgent.invoke` for a user request: build the tool dict, run the
loop for at most `max_iterations` iterations, and package the result. -/
def ReactAgent_invoke (tools : List Tool) (llm : String → String) (userRequest : String) :
    AgentResult :=
  ⟨userRequest,
    (runFrom (buildToolDict tools) llm max_iterations 0
      (initState (buildToolDict tools) userRequest)).1,
    (runFrom (buildToolDict tools) llm max_iterations 0
      (initState (buildToolDict tools) userRequest)).2.1.callLog⟩

/-- The loop-state invariant: the required set has no duplicates, the
dispatched-tool sequence has no duplicates, and a dispatched tool is never
still required. -/
def InvState (st : RunState) : Prop :=
  st.requiredTools.Nodup ∧ st.toolsUsed.Nodup ∧ ∀ a ∈ st.toolsUsed, a ∉ st.requiredTools

/-- The final answer as the spec words it, up to the next marker: the text
after the first final-answer marker, up to the next occurrence of the
marker (or the end of the response), trimmed. -/
def finalAnswerText (r : String) : String :=
  strTrim ⟨takeUntil "FINAL ANSWER:".data ((afterFirst "FINAL ANSWER:".data r.data).getD [])⟩

/-- An HTTP layer on which every post raises a read timeout. -/
def timeoutHttp : String → Int → HttpOutcome BudgetBody := fun _ _ => .exn "Read timed out."

/-- The budget tool wired to the timing-out HTTP layer.  Its `run` always
returns (`.ok`), because the adapter catches every exception itself. -/
def budgetTimeoutTool : Tool :=
  ⟨"estimate_budget", "Estimates travel budget. Input: 'destination,days' (e.g., 'Barcelona,5')",
    fun s => .ok (estimate_budget timeoutHttp s)⟩

/-- A completion capability that always requests the budget tool. -/
def c1llm : String → String := fun _ => "ACTION: estimate_budget\nINPUT: Barcelona,5"

/-- The initial loop state of the run driven by `c1llm`. -/
def c1st0 : RunState := initState (buildToolDict [budgetTimeoutTool]) "Plan a trip"

/-- A small state with the budget tool still required. -/
def c1wst : RunState := ⟨[], [], [], ["estimate_budget"], ""⟩

/-- A registry with the single canonical name `estimate_budget`. -/
def c2Tool : Tool := ⟨"estimate_budget", "d", fun _ => .ok "ok"⟩

/-- A small state with `estimate_budget` still required. -/
def c2st : RunState := ⟨[], [], [], ["estimate_budget"], ""⟩

/-- A small state with one tool still required. -/
def c3st : RunState := ⟨[], [], [], ["estimate_budget"], "p"⟩

/-- A completion capability answering with an action and a final answer in
the same response. -/
def c3wllm : String → String :=
  fun _ => "ACTION: get_weather\nINPUT: Paris\nFINAL ANSWER: done"

/-- A state with a nonempty call log and a nonempty required set. -/
def c3wst : RunState := ⟨["x"], [("x", "r")], [⟨1, "x", "i", "r"⟩], ["estimate_budget"], "p"⟩

/-- A one-tool registry for the duplicate-dispatch witness. -/
def c4Tool : Tool := ⟨"t1", "d", fun _ => .ok "r"⟩

/-- A state in which `t1` has already been called and only `t2` remains. -/
def c4wst : RunState := ⟨["t1"], [("t1", "r")], [⟨1, "t1", "i", "r"⟩], ["t2"], "p"⟩

/-- A completion capability that emits no markers at all. -/
def c6wllm : String → String := fun _ => "Here is the plan."

/-- A state with every tool already called. -/
def c6wst : RunState := ⟨[], [], [], [], "p"⟩

/-- An exhaustion-time state with no tool results. -/
def c7wstEmpty : RunState := ⟨[], [], [], ["t"], "p"⟩

/-- An exhaustion-time state with one gathered tool result. -/
def c7wstOne : RunState :=
  ⟨["estimate_budget"], [("estimate_budget", "Budget: $1000.00 USD for 5 days in Barcelona")],
    [⟨1, "estimate_budget", "Barcelona,5", "Budget: $1000.00 USD for 5 days in Barcelona"⟩],
    [], "p"⟩

/-!
## Theorems
Helper lemmas first, then one theorem per claim (with a witness or a
counterexample where called for).
-/

theorem rnd_sub_abs_le (x : ℚ) : |(rnd x : ℚ) - x| ≤ 1 / 2 := by
  unfold rnd
  split
  · rename_i htie
    split
    · rw [abs_le]
      constructor <;> linarith
    · push_cast
      rw [abs_le]
      constructor <;> linarith
  · have h1 : (⌊x + 1 / 2⌋ : ℚ) ≤ x + 1 / 2 := Int.floor_le _
    have h2 : x + 1 / 2 < ⌊x + 1 / 2⌋ + 1 := Int.lt_floor_add_one _
    rw [abs_le]
    constructor <;> linarith

theorem round2_sub_abs_le (x : ℚ) : |round2 x - x| ≤ 1 / 200 := by
  unfold round2
  have h := rnd_sub_abs_le (100 * x)
  rw [abs_le] at h ⊢
  constructor <;> linarith

theorem lookup_getD_pos (l : List (String × ℚ)) (h : ∀ p ∈ l, 0 < p.2) (c : String) :
    0 < (l.lookup c).getD 1 := by
  induction l with
  | nil => simp
  | cons p t ih =>
    simp only [List.lookup]
    split
    · simpa using h p (List.mem_cons_self p t)
    · exact ih fun q hq => h q (List.mem_cons_of_mem p hq)

theorem rateOf_pos (c : String) : 0 < rateOf c := by
  apply lookup_getD_pos
  intro p hp
  fin_cases hp <;> norm_num

/-- C8 (counterexample): converting 1 KRW to USD rounds to 0.00, and
converting that back gives 0.00, which differs from the original amount
by 1 — far outside any 2-decimal-place rounding tolerance. -/
theorem c8_roundtrip_counterexample :
    currencyRoundTrip 1 "KRW" "USD" = 0 ∧
      ¬ |currencyRoundTrip 1 "KRW" "USD" - 1| ≤ 1 / 100 := by
  have h : currencyRoundTrip 1 "KRW" "USD" = 0 := by
    rw [show currencyRoundTrip 1 "KRW" "USD" =
      round2 (round2 (1 / (13055 / 10) * 1) / 1 * (13055 / 10)) from rfl]
    norm_num [round2, rnd]
  refine ⟨h, ?_⟩
  rw [h]
  norm_num

/-- C8 (amended): the round-trip X→Y→X differs from the original amount by
at most `0.005 × (1 + rate[X]/rate[Y])`; the 2-decimal tolerance claimed by
the spec is guaranteed only when `rate[X] ≤ rate[Y]`, and fails otherwise
(see the counterexample). -/
theorem c8_roundtrip_bound (A : ℚ) (X Y : String) :
    |currencyRoundTrip A X Y - A| ≤
      1 / 200 * (1 + rateOf (strUpper X) / rateOf (strUpper Y)) := by
  have hX : 0 < rateOf (strUpper X) := rateOf_pos _
  have hY : 0 < rateOf (strUpper Y) := rateOf_pos _
  set rX := rateOf (strUpper X) with hrX
  set rY := rateOf (strUpper Y) with hrY
  have hX0 : rX ≠ 0 := ne_of_gt hX
  have hY0 : rY ≠ 0 := ne_of_gt hY
  have hrt : currencyRoundTrip A X Y = round2 (round2 (A / rX * rY) / rY * rX) := rfl
  set c := round2 (A / rX * rY) with hc
  have h1 : |c - A / rX * rY| ≤ 1 / 200 := round2_sub_abs_le _
  have h2 : |round2 (c / rY * rX) - c / rY * rX| ≤ 1 / 200 := round2_sub_abs_le _
  have key : c / rY * rX - A = (c - A / rX * rY) * (rX / rY) := by
    field_simp
    ring
  have h3 : |c / rY * rX - A| ≤ 1 / 200 * (rX / rY) := by
    rw [key, abs_mul, abs_of_pos (div_pos hX hY)]
    exact mul_le_mul_of_nonneg_right h1 (le_of_lt (div_pos hX hY))
  have h4 : |round2 (c / rY * rX) - A| ≤
      |round2 (c / rY * rX) - c / rY * rX| + |c / rY * rX - A| := abs_sub_le _ _ _
  rw [hrt]
  linarith

/-- C9 (counterexample): `"1 + 2\n"` contains, after removing spaces, the
character `'\n'`, which is outside `digits + - * / ( ) .` — yet the gate's
`$` matches before the single trailing newline, so `calculate` succeeds
with 3.0 instead of returning the invalid-characters error the claim
demands. -/
theorem c9_invalid_chars_counterexample :
    (∃ c ∈ (removeSpaces "1 + 2\n").data, allowedChar c = false) ∧
      calculate "1 + 2\n" = ⟨"1 + 2\n", 3, true, none⟩ := by
  refine ⟨by decide, ?_⟩
  have h : fracToRat ⟨3, 1⟩ = 3 := by norm_num [fracToRat]
  calc calculate "1 + 2\n" = ⟨"1 + 2\n", fracToRat ⟨3, 1⟩, true, none⟩ := rfl
    _ = ⟨"1 + 2\n", 3, true, none⟩ := by rw [h]

/-- C9 (amended): `calculate "3+4*2"` succeeds with 11.0; `calculate
"1/0"` fails with the division-by-zero error; and every expression that,
after removing spaces, contains an ASCII character outside
`digits + - * / ( ) .` at any position other than as a single trailing
newline fails with the invalid-characters error.  The two carve-outs are
forced by Python's regex semantics: `$` tolerates one trailing newline
(see the counterexample), and `\d` also matches non-ASCII Unicode digits,
which pass the gate and fail only later inside `eval` with a generic
calculation error. -/
theorem c9_calculate_behavior :
    calculate "3+4*2" = ⟨"3+4*2", 11, true, none⟩ ∧
      calculate "1/0" = ⟨"1/0", 0, false, some "Division by zero"⟩ ∧
      ∀ e : String,
        (∃ c ∈ (removeSpaces e).data,
          (c ∈ (removeSpaces e).data.dropLast ∨
            ((removeSpaces e).data.getLast? = some c ∧ c ≠ '\n')) ∧
          c.toNat < 128 ∧ allowedChar c = false) →
        calculate e = ⟨e, 0, false, some "Invalid characters in expression"⟩ := by
  refine ⟨?_, rfl, ?_⟩
  · have h : fracToRat ⟨11, 1⟩ = 11 := by norm_num [fracToRat]
    calc calculate "3+4*2" = ⟨"3+4*2", fracToRat ⟨11, 1⟩, true, none⟩ := rfl
      _ = ⟨"3+4*2", 11, true, none⟩ := by rw [h]
  · rintro e ⟨c, hcmem, hpos, -, hbad⟩
    have hallfold : ∀ l : List Char, c ∈ l → l.all allowedChar = false := by
      intro l hl
      cases hAll : l.all allowedChar with
      | false => rfl
      | true => exact absurd (List.all_eq_true.mp hAll c hl) (by simp [hbad])
    have hall : (removeSpaces e).data.all allowedChar = false := hallfold _ hcmem
    have hgate : regexOk (removeSpaces e).data = false := by
      unfold regexOk
      rw [hall]
      simp only [Bool.and_false, Bool.false_or]
      rcases hpos with hdl | ⟨hlast, hne⟩
      · rw [hallfold _ hdl]
        simp
      · rw [hlast]
        have hne' : (some c == some '\n') = false := by simp [hne]
        rw [hne']
        simp
    unfold calculate safe_eval
    rw [hgate]
    simp

/-- C9 witness: `"import os"` contains disallowed ASCII characters away
from the trailing position and is rejected with the invalid-characters
error. -/
theorem c9_calculate_witness :
    (∃ c ∈ (removeSpaces "import os").data,
      (c ∈ (removeSpaces "import os").data.dropLast ∨
        ((removeSpaces "import os").data.getLast? = some c ∧ c ≠ '\n')) ∧
      c.toNat < 128 ∧ allowedChar c = false) ∧
      calculate "import os" =
        ⟨"import os", 0, false, some "Invalid characters in expression"⟩ :=
  ⟨by decide, c9_calculate_behavior.2.2 "import os" (by decide)⟩

/-- C10: a destination whose normalized form is empty substring-matches the
first catalog entry (`"paris"`) in both servers: `search_destination`
returns the paris attraction/activity/landmark lists and `get_weather`
returns the paris entry for the derived season — never the generic
fallback. -/
theorem c10_empty_destination (d : String) (date : Option String) (month : Int)
    (h : strTrim (strLower d) = "") :
    search_destination d =
      ⟨d, ["Eiffel Tower", "Louvre Museum", "Notre-Dame Cathedral", "Arc de Triomphe"],
        ["Seine River Cruise", "Wine Tasting", "Cooking Classes", "Shopping on Champs-Élysées"],
        ["Sacré-Cœur", "Versailles Palace", "Panthéon"]⟩ ∧
    get_weather d date month =
      ⟨d, date, (seasonData parisSeasons (get_season month)).temp,
        (seasonData parisSeasons (get_season month)).conditions,
        (seasonData parisSeasons (get_season month)).rec'⟩ := by
  constructor
  · show searchWithNorm d (strTrim (strLower d)) = _
    rw [h]
    rfl
  · show weatherWithNorm d date month (strTrim (strLower d)) = _
    rw [h]
    rfl

/-- C10 witness: instantiated at the all-whitespace destination `" "` in
July. -/
theorem c10_empty_destination_witness :
    strTrim (strLower " ") = "" ∧
      (search_destination " " =
        ⟨" ", ["Eiffel Tower", "Louvre Museum", "Notre-Dame Cathedral", "Arc de Triomphe"],
          ["Seine River Cruise", "Wine Tasting", "Cooking Classes", "Shopping on Champs-Élysées"],
          ["Sacré-Cœur", "Versailles Palace", "Panthéon"]⟩ ∧
      get_weather " " (some "2024-07-15") 7 =
        ⟨" ", some "2024-07-15", (seasonData parisSeasons (get_season 7)).temp,
          (seasonData parisSeasons (get_season 7)).conditions,
          (seasonData parisSeasons (get_season 7)).rec'⟩) :=
  ⟨by decide, c10_empty_destination " " (some "2024-07-15") 7 (by decide)⟩

theorem step_of_final (tools : List Tool) (iteration : Nat) (st : RunState) (response : String)
    (hfin : strContains response "FINAL ANSWER:" = true) :
    step tools iteration st response =
      .done (strTrim ((pySplit response "FINAL ANSWER:").getD 1 "")) := by
  simp [step, hfin]

theorem step_parse_fail (tools : List Tool) (iteration : Nat) (st : RunState) (response : String)
    (hfin : strContains response "FINAL ANSWER:" = false)
    (hact : (strContains response "ACTION:" && strContains response "INPUT:") = true)
    (hfa : findActionName response.data = none) :
    step tools iteration st response = .next { st with prompt := st.prompt ++ parseErrorMsg } := by
  simp [step, hfin, hact, hfa]

theorem step_unknown (tools : List Tool) (iteration : Nat) (st : RunState) (response a : String)
    (hfin : strContains response "FINAL ANSWER:" = false)
    (hact : (strContains response "ACTION:" && strContains response "INPUT:") = true)
    (hfa : findActionName response.data = some a)
    (hreg : tools.find? (fun t => t.name == a) = none) :
    step tools iteration st response =
      .next { st with prompt := st.prompt ++ unknownToolMsg a tools } := by
  simp [step, hfin, hact, hfa, hreg]

theorem step_already (tools : List Tool) (iteration : Nat) (st : RunState) (response a : String)
    (t : Tool)
    (hfin : strContains response "FINAL ANSWER:" = false)
    (hact : (strContains response "ACTION:" && strContains response "INPUT:") = true)
    (hfa : findActionName response.data = some a)
    (hreg : tools.find? (fun t => t.name == a) = some t)
    (hmem : a ∉ st.requiredTools) :
    step tools iteration st response =
      .next { st with prompt := st.prompt ++ alreadyCalledMsg a st.requiredTools } := by
  simp [step, hfin, hact, hfa, hreg, hmem]

theorem step_run_ok (tools : List Tool) (iteration : Nat) (st : RunState) (response a r : String)
    (t : Tool)
    (hfin : strContains response "FINAL ANSWER:" = false)
    (hact : (strContains response "ACTION:" && strContains response "INPUT:") = true)
    (hfa : findActionName response.data = some a)
    (hreg : tools.find? (fun t => t.name == a) = some t)
    (hmem : a ∈ st.requiredTools)
    (hrun : t.run (parsedToolInput response) = .ok r) :
    step tools iteration st response =
      .next (dispatchUpdate iteration st a (parsedToolInput response) r) := by
  simp [step, hfin, hact, hfa, hreg, hmem, hrun]

theorem step_run_raise (tools : List Tool) (iteration : Nat) (st : RunState)
    (response a msg : String) (t : Tool)
    (hfin : strContains response "FINAL ANSWER:" = false)
    (hact : (strContains response "ACTION:" && strContains response "INPUT:") = true)
    (hfa : findActionName response.data = some a)
    (hreg : tools.find? (fun t => t.name == a) = some t)
    (hmem : a ∈ st.requiredTools)
    (hrun : t.run (parsedToolInput response) = .error msg) :
    step tools iteration st response = .next { st with prompt := st.prompt ++ parseErrorMsg } := by
  simp [step, hfin, hact, hfa, hreg, hmem, hrun]

theorem step_implicit_answer (tools : List Tool) (iteration : Nat) (st : RunState)
    (response : String)
    (hfin : strContains response "FINAL ANSWER:" = false)
    (hact : (strContains response "ACTION:" && strContains response "INPUT:") = false)
    (hreq : st.requiredTools = []) :
    step tools iteration st response = .done response := by
  simp [step, hfin, hact, hreq]

theorem strData_append (a b : String) : (a ++ b).data = a.data ++ b.data := rfl

theorem containsSub_iff (needle : List Char) :
    ∀ cs : List Char, containsSub needle cs = true ↔ ∃ pre post, cs = pre ++ needle ++ post := by
  intro cs
  induction cs with
  | nil =>
    simp only [containsSub, List.isEmpty_iff]
    constructor
    · rintro rfl
      exact ⟨[], [], rfl⟩
    · rintro ⟨pre, post, h⟩
      rcases List.append_eq_nil.mp (List.append_eq_nil.mp h.symm).1 with ⟨-, h2⟩
      exact h2
  | cons c rest ih =>
    simp only [containsSub, Bool.or_eq_true, List.isPrefixOf_iff_prefix, ih]
    constructor
    · rintro (⟨post, hpost⟩ | ⟨pre, post, rfl⟩)
      · exact ⟨[], post, hpost.symm⟩
      · exact ⟨c :: pre, post, rfl⟩
    · rintro ⟨pre, post, h⟩
      cases pre with
      | nil =>
        left
        exact ⟨post, by simpa using h.symm⟩
      | cons c' pre' =>
        right
        rcases List.cons_eq_cons.mp h with ⟨-, h2⟩
        exact ⟨pre', post, h2⟩

theorem summaryPieces_contains (n r : String) :
    ∀ trs : List (String × String), (n, r) ∈ trs →
      ∃ pre post, (summaryPieces trs).data = pre ++ r.data ++ post := by
  intro trs
  induction trs with
  | nil => intro h; exact absurd h (List.not_mem_nil _)
  | cons p rest ih =>
    intro h
    rcases List.mem_cons.mp h with heq | hmem
    · rw [← heq]
      refine ⟨("\n" ++ n ++ ": ").data, ("\n" ++ summaryPieces rest).data, ?_⟩
      show ("\n" ++ n ++ ": " ++ r ++ "\n" ++ summaryPieces rest).data = _
      simp [strData_append]
    · rcases ih hmem with ⟨pre, post, hdec⟩
      refine ⟨("\n" ++ p.1 ++ ": " ++ p.2 ++ "\n").data ++ pre, post, ?_⟩
      show ("\n" ++ p.1 ++ ": " ++ p.2 ++ "\n" ++ summaryPieces rest).data = _
      simp [strData_append, hdec]

/-- C7: at exhaustion, an empty `toolResults` yields the generic
incompletion message, and otherwise every gathered result string occurs
verbatim inside the returned answer; either way the return is a normal
result triple. -/
theorem c7_exhaustion_fallback (tools : List Tool) (llm : String → String) (iteration : Nat)
    (st : RunState) :
    (st.toolResults = [] →
      runFrom tools llm 0 iteration st = ("Could not complete within iteration limit.", st, 0)) ∧
    (∀ n r, (n, r) ∈ st.toolResults →
      strContains (runFrom tools llm 0 iteration st).1 r = true) := by
  constructor
  · intro h
    simp [runFrom, fallbackAnswer, h]
  · intro n r hmem
    have h1 : (runFrom tools llm 0 iteration st).1 = fallbackAnswer st.toolResults := rfl
    rw [h1]
    have hne : st.toolResults.isEmpty = false := by
      cases h : st.toolResults with
      | nil => rw [h] at hmem; exact absurd hmem (List.not_mem_nil _)
      | cons p rest => rfl
    unfold fallbackAnswer
    rw [hne]
    simp only [Bool.false_eq_true, if_false]
    rcases summaryPieces_contains n r st.toolResults hmem with ⟨pre, post, hdec⟩
    show containsSub r.data _ = true
    rw [containsSub_iff]
    exact ⟨"Could not generate complete answer in time, but gathered:\nBased on the tools used:\n".data ++ pre,
      post, by rw [strData_append, hdec]; simp⟩

/-- C7 witness: with no results the generic message is returned; with one
gathered result, its text occurs in the synthesized fallback answer. -/
theorem c7_exhaustion_fallback_witness :
    runFrom [] c6wllm 0 15 c7wstEmpty = ("Could not complete within iteration limit.", c7wstEmpty, 0) ∧
      strContains (runFrom [] c6wllm 0 15 c7wstOne).1
        "Budget: $1000.00 USD for 5 days in Barcelona" = true :=
  ⟨(c7_exhaustion_fallback [] c6wllm 15 c7wstEmpty).1 rfl,
    (c7_exhaustion_fallback [] c6wllm 15 c7wstOne).2 "estimate_budget"
      "Budget: $1000.00 USD for 5 days in Barcelona" (by simp [c7wstOne])⟩

/-- C6: when the response has neither a final-answer marker nor the action
format and no tools remain required, the loop returns that raw response
verbatim as the answer together with the current call log, after this
single completion call. -/
theorem c6_implicit_final (tools : List Tool) (llm : String → String) (fuel iteration : Nat)
    (st : RunState)
    (hreq : st.requiredTools = [])
    (hfin : strContains (llm st.prompt) "FINAL ANSWER:" = false)
    (hact : (strContains (llm st.prompt) "ACTION:" && strContains (llm st.prompt) "INPUT:") = false) :
    runFrom tools llm (fuel + 1) iteration st = (llm st.prompt, st, 1) := by
  have hs := step_implicit_answer tools iteration st (llm st.prompt) hfin hact hreq
  simp [runFrom, hs]

/-- C6 witness: an unmarked response with an empty required set is returned
verbatim. -/
theorem c6_implicit_final_witness :
    runFrom [] c6wllm 15 3 c6wst = ("Here is the plan.", c6wst, 1) :=
  c6_implicit_final [] c6wllm 14 3 c6wst rfl (by decide) (by decide)

/-- C5: the loop makes at most `fuel` completion calls before returning,
and `ReactAgent.invoke` always returns a result record packaging the
loop's answer and call log (the model is total: no branch raises to the
caller). -/
theorem c5_termination (tools : List Tool) (llm : String → String) (fuel iteration : Nat)
    (st : RunState) (u : String) :
    (runFrom tools llm fuel iteration st).2.2 ≤ fuel ∧
    ReactAgent_invoke tools llm u =
      ⟨u,
        (runFrom (buildToolDict tools) llm max_iterations 0
          (initState (buildToolDict tools) u)).1,
        (runFrom (buildToolDict tools) llm max_iterations 0
          (initState (buildToolDict tools) u)).2.1.callLog⟩ := by
  constructor
  · induction fuel generalizing iteration st with
    | zero => simp [runFrom]
    | succ f ih =>
      simp only [runFrom]
      cases hstep : step tools iteration st (llm st.prompt) with
      | done out => simp
      | next st' =>
        simp only []
        have := ih (iteration + 1) st'
        omega
  · rfl

theorem splitFuel_getD_zero (sep : List Char) :
    ∀ (cs : List Char) (f : Nat) (acc : List Char), cs.length ≤ f →
      (splitFuel sep f acc cs).getD 0 [] = acc.reverse ++ takeUntil sep cs := by
  intro cs
  induction cs with
  | nil => intro f acc h; cases f <;> simp [splitFuel, takeUntil]
  | cons c rest ih =>
    intro f acc h
    cases f with
    | zero => simp at h
    | succ f' =>
      by_cases hp : sep.isPrefixOf (c :: rest) = true
      · simp [splitFuel, takeUntil, hp]
      · rw [show splitFuel sep (f' + 1) acc (c :: rest) = splitFuel sep f' (c :: acc) rest from by
          simp [splitFuel, hp]]
        rw [ih f' (c :: acc) (by simpa using Nat.le_of_succ_le_succ h)]
        simp [takeUntil, hp]

theorem splitFuel_getD_one (sep : List Char) (hsep : sep ≠ []) :
    ∀ (cs : List Char) (f : Nat) (acc : List Char), cs.length ≤ f →
      containsSub sep cs = true →
      (splitFuel sep f acc cs).getD 1 [] = takeUntil sep ((afterFirst sep cs).getD []) := by
  intro cs
  induction cs with
  | nil =>
    intro f acc _ hcon
    simp only [containsSub, List.isEmpty_iff] at hcon
    exact absurd hcon hsep
  | cons c rest ih =>
    intro f acc h hcon
    cases f with
    | zero => simp at h
    | succ f' =>
      by_cases hp : sep.isPrefixOf (c :: rest) = true
      · rw [show splitFuel sep (f' + 1) acc (c :: rest) =
            acc.reverse :: splitFuel sep f' [] ((c :: rest).drop sep.length) from by
          simp [splitFuel, hp]]
        have hlen : ((c :: rest).drop sep.length).length ≤ f' := by
          rw [List.length_drop]
          have : 1 ≤ sep.length := by
            cases sep with
            | nil => exact absurd rfl hsep
            | cons _ _ => simp
          simp only [List.length_cons] at h ⊢
          omega
        have h0 := splitFuel_getD_zero sep ((c :: rest).drop sep.length) f' [] hlen
        simp only [List.getD_cons_succ]
        rw [h0]
        simp [afterFirst, hp]
      · rw [show splitFuel sep (f' + 1) acc (c :: rest) = splitFuel sep f' (c :: acc) rest from by
          simp [splitFuel, hp]]
        have hcon' : containsSub sep rest = true := by
          simp only [containsSub, Bool.or_eq_true] at hcon
          rcases hcon with h' | h'
          · exact absurd h' hp
          · exact h'
        rw [ih f' (c :: acc) (by simpa using Nat.le_of_succ_le_succ h) hcon']
        simp [afterFirst, hp]

theorem getD_map_mk (l : List (List Char)) (i : Nat) :
    (l.map (fun x => (⟨x⟩ : String))).getD i "" = ⟨l.getD i []⟩ := by
  simp only [List.getD_eq_getElem?_getD, List.getElem?_map]
  cases l[i]? <;> rfl

/-- C3 (amended): a response containing the final-answer marker makes the
loop return immediately after this single completion call — the check
precedes action parsing and holds even when tools remain required — with
the state (hence the call log) of that moment, and with answer equal to
the text between the first marker occurrence and the next marker
occurrence (or the end of the response), trimmed.  The original claim's
"all of the text following the marker" is wrong when the marker occurs
twice: Python's `split(...)[1]` stops at the second occurrence (see the
counterexample). -/
theorem c3_final_precedence (tools : List Tool) (llm : String → String) (fuel iteration : Nat)
    (st : RunState)
    (h : strContains (llm st.prompt) "FINAL ANSWER:" = true) :
    runFrom tools llm (fuel + 1) iteration st = (finalAnswerText (llm st.prompt), st, 1) := by
  have hs := step_of_final tools iteration st (llm st.prompt) h
  have key : strTrim ((pySplit (llm st.prompt) "FINAL ANSWER:").getD 1 "") =
      finalAnswerText (llm st.prompt) := by
    unfold finalAnswerText pySplit
    rw [getD_map_mk]
    rw [splitFuel_getD_one "FINAL ANSWER:".data (by decide) (llm st.prompt).data
      (llm st.prompt).data.length [] le_rfl h]
  simp only [runFrom, hs]
  rw [key]

/-- C3 (counterexample): on a response with two final-answer markers the
loop returns `"A"`, while all of the text following the (first) marker,
trimmed, is `"A\nFINAL ANSWER: B"` — the claimed answer value is wrong. -/
theorem c3_counterexample :
    step [] 0 c3st "FINAL ANSWER: A\nFINAL ANSWER: B" = .done "A" ∧
      strTrim ⟨(afterFirst "FINAL ANSWER:".data
        "FINAL ANSWER: A\nFINAL ANSWER: B".data).getD []⟩ = "A\nFINAL ANSWER: B" ∧
      ("A" : String) ≠ "A\nFINAL ANSWER: B" :=
  ⟨by decide, by decide, by decide⟩

/-- C3 witness: a response carrying both an action directive and a final
answer, with a tool still required and a nonempty log — the final answer
wins and the log of the return moment is the current one. -/
theorem c3_final_precedence_witness :
    strContains (c3wllm c3wst.prompt) "FINAL ANSWER:" = true ∧
      runFrom [] c3wllm 5 0 c3wst = (finalAnswerText (c3wllm c3wst.prompt), c3wst, 1) :=
  ⟨by decide, c3_final_precedence [] c3wllm 4 0 c3wst (by decide)⟩

theorem step_next_inv (tools : List Tool) (iteration : Nat) (st : RunState) (response : String)
    (st' : RunState) (h : step tools iteration st response = .next st') :
    (st'.requiredTools = st.requiredTools ∧ st'.toolsUsed = st.toolsUsed ∧
      st'.toolResults = st.toolResults ∧ st'.callLog = st.callLog) ∨
    (∃ a r, a ∈ st.requiredTools ∧ st' = dispatchUpdate iteration st a (parsedToolInput response) r) := by
  unfold step at h
  repeat' split at h
  all_goals
    first
      | exact StepOut.noConfusion h
      | (injection h with h; subst h; left; exact ⟨rfl, rfl, rfl, rfl⟩)
      | (injection h with h; subst h; right; exact ⟨_, _, by assumption, rfl⟩)

theorem upsertTool_names (t : Tool) :
    ∀ acc : List Tool, (upsertTool acc t).map Tool.name =
      if t.name ∈ acc.map Tool.name then acc.map Tool.name else acc.map Tool.name ++ [t.name] := by
  intro acc
  induction acc with
  | nil => simp [upsertTool]
  | cons u rest ih =>
    simp only [upsertTool]
    by_cases h : u.name = t.name
    · simp [h]
    · rw [if_neg h]
      simp only [List.map_cons, ih, List.mem_cons]
      have h' : ¬ t.name = u.name := fun hh => h hh.symm
      by_cases hm : t.name ∈ rest.map Tool.name
      · simp [hm, h']
      · simp [hm, h']

theorem buildToolDict_names_nodup (ts : List Tool) :
    ((buildToolDict ts).map Tool.name).Nodup := by
  suffices h : ∀ (l : List Tool) (acc : List Tool), (acc.map Tool.name).Nodup →
      ((l.foldl upsertTool acc).map Tool.name).Nodup from
    h ts [] List.nodup_nil
  intro l
  induction l with
  | nil => intro acc h; exact h
  | cons t rest ih =>
    intro acc h
    simp only [List.foldl_cons]
    apply ih
    rw [upsertTool_names]
    split
    · exact h
    · rename_i hnm
      simp [List.nodup_append, h, hnm]

theorem step_preserves_inv (tools : List Tool) (iteration : Nat) (st : RunState)
    (response : String) (st' : RunState)
    (h : step tools iteration st response = .next st') (hinv : InvState st) : InvState st' := by
  rcases step_next_inv tools iteration st response st' h with ⟨h1, h2, -, -⟩ | ⟨a, r, hmem, rfl⟩
  · exact ⟨h1 ▸ hinv.1, h2 ▸ hinv.2.1, fun x hx => h1 ▸ hinv.2.2 x (h2 ▸ hx)⟩
  · refine ⟨List.Nodup.erase a hinv.1, ?_, ?_⟩
    · have hnotused : a ∉ st.toolsUsed := fun hu => hinv.2.2 a hu hmem
      simp [dispatchUpdate, List.nodup_append, hinv.2.1, hnotused]
    · intro x hx
      simp only [dispatchUpdate, List.mem_append, List.mem_singleton] at hx
      rcases hx with hx | rfl
      · intro hmem'
        exact hinv.2.2 x hx (List.erase_subset _ _ hmem')
      · intro hmem'
        exact ((List.Nodup.mem_erase_iff hinv.1).mp hmem').1 rfl

theorem step_next_required_sublist (tools : List Tool) (iteration : Nat) (st : RunState)
    (response : String) (st' : RunState)
    (h : step tools iteration st response = .next st') :
    List.Sublist st'.requiredTools st.requiredTools := by
  rcases step_next_inv tools iteration st response st' h with ⟨h1, -, -, -⟩ | ⟨a, r, -, rfl⟩
  · rw [h1]
  · exact List.erase_sublist _ _

theorem traceFrom_head (tools : List Tool) (llm : String → String) (fuel iteration : Nat)
    (st : RunState) : (traceFrom tools llm fuel iteration st).head? = some st := by
  cases fuel with
  | zero => rfl
  | succ f =>
    cases h : step tools iteration st (llm st.prompt) with
    | done out => simp [traceFrom, h]
    | next st' => simp [traceFrom, h]

theorem traceFrom_chain (tools : List Tool) (llm : String → String) :
    ∀ (fuel iteration : Nat) (st : RunState),
      List.Chain' (fun s s' => List.Sublist s'.requiredTools s.requiredTools)
        (traceFrom tools llm fuel iteration st) := by
  intro fuel
  induction fuel with
  | zero => intro iteration st; simp [traceFrom]
  | succ f ih =>
    intro iteration st
    cases h : step tools iteration st (llm st.prompt) with
    | done out => simp [traceFrom, h]
    | next st' =>
      simp only [traceFrom, h]
      rw [List.chain'_cons']
      refine ⟨?_, ih (iteration + 1) st'⟩
      intro b hb
      rw [traceFrom_head] at hb
      simp only [Option.mem_def, Option.some.injEq] at hb
      subst hb
      exact step_next_required_sublist tools iteration st (llm st.prompt) st' h

theorem traceFrom_inv (tools : List Tool) (llm : String → String) :
    ∀ (fuel iteration : Nat) (st : RunState), InvState st →
      ∀ s ∈ traceFrom tools llm fuel iteration st, InvState s := by
  intro fuel
  induction fuel with
  | zero =>
    intro iteration st hinv s hs
    simp [traceFrom] at hs
    exact hs ▸ hinv
  | succ f ih =>
    intro iteration st hinv s hs
    cases h : step tools iteration st (llm st.prompt) with
    | done out =>
      rw [traceFrom, h] at hs
      simp at hs
      exact hs ▸ hinv
    | next st' =>
      rw [traceFrom, h] at hs
      rcases List.mem_cons.mp hs with rfl | hs'
      · exact hinv
      · exact ih (iteration + 1) st' (step_preserves_inv tools iteration st (llm st.prompt) st' h hinv) s hs'

/-- C4: along any run's state trace, `requiredTools` only shrinks — each
successor's set is a subset of (and no longer than) its predecessor's, so
a removed name never reappears; the dispatched-tool sequence `toolsUsed`
never holds a duplicate at any point; and a request naming a registered
tool that is no longer required only appends the duplicate correction,
leaving all four state components unchanged. -/
theorem c4_monotone_no_double_dispatch (tools : List Tool) (llm : String → String)
    (fuel : Nat) (u : String) :
    List.Chain' (fun s s' => s'.requiredTools ⊆ s.requiredTools ∧
        s'.requiredTools.length ≤ s.requiredTools.length)
      (traceFrom (buildToolDict tools) llm fuel 0 (initState (buildToolDict tools) u)) ∧
    (∀ s ∈ traceFrom (buildToolDict tools) llm fuel 0 (initState (buildToolDict tools) u),
      s.toolsUsed.Nodup) ∧
    (∀ (iteration : Nat) (st : RunState) (response a : String) (t : Tool),
      strContains response "FINAL ANSWER:" = false →
      (strContains response "ACTION:" && strContains response "INPUT:") = true →
      findActionName response.data = some a →
      (buildToolDict tools).find? (fun x => x.name == a) = some t →
      a ∉ st.requiredTools →
      step (buildToolDict tools) iteration st response =
        .next { st with prompt := st.prompt ++ alreadyCalledMsg a st.requiredTools }) := by
  refine ⟨?_, ?_, ?_⟩
  · exact List.Chain'.imp (fun s s' hsub => ⟨hsub.subset, hsub.length_le⟩)
      (traceFrom_chain (buildToolDict tools) llm fuel 0 (initState (buildToolDict tools) u))
  · have hinv : InvState (initState (buildToolDict tools) u) :=
      ⟨buildToolDict_names_nodup tools, List.nodup_nil, by simp [initState]⟩
    exact fun s hs =>
      (traceFrom_inv (buildToolDict tools) llm fuel 0 (initState (buildToolDict tools) u)
        hinv s hs).2.1
  · intro iteration st response a t hfin hact hfa hreg hmem
    exact step_already (buildToolDict tools) iteration st response a t hfin hact hfa hreg hmem

/-- C4 witness: a re-request of the already-called `t1` at a concrete
state yields exactly the duplicate-correction transition. -/
theorem c4_monotone_no_double_dispatch_witness :
    step (buildToolDict [c4Tool]) 0 c4wst "ACTION: t1\nINPUT: x" =
      .next { c4wst with prompt := c4wst.prompt ++ alreadyCalledMsg "t1" c4wst.requiredTools } :=
  (c4_monotone_no_double_dispatch [c4Tool] c6wllm 0 "u").2.2 0 c4wst
    "ACTION: t1\nINPUT: x" "t1" c4Tool (by decide) (by decide) (by decide) rfl (by decide)

theorem runFrom_succ_next (tools : List Tool) (llm : String → String) (fuel iteration : Nat)
    (st st' : RunState) (h : step tools iteration st (llm st.prompt) = .next st') :
    runFrom tools llm (fuel + 1) iteration st =
      ((runFrom tools llm fuel (iteration + 1) st').1,
        (runFrom tools llm fuel (iteration + 1) st').2.1,
        (runFrom tools llm fuel (iteration + 1) st').2.2 + 1) := by
  simp only [runFrom, h]

theorem c1_loop_stable :
    ∀ (fuel iteration : Nat) (st : RunState), st.requiredTools = [] →
      (runFrom (buildToolDict [budgetTimeoutTool]) c1llm fuel iteration st).2.1.callLog =
        st.callLog ∧
      (runFrom (buildToolDict [budgetTimeoutTool]) c1llm fuel iteration st).2.1.requiredTools =
        [] ∧
      (runFrom (buildToolDict [budgetTimeoutTool]) c1llm fuel iteration st).2.1.toolResults =
        st.toolResults := by
  intro fuel
  induction fuel with
  | zero => intro iteration st h; exact ⟨rfl, h, rfl⟩
  | succ f ih =>
    intro iteration st h
    have hstep : step (buildToolDict [budgetTimeoutTool]) iteration st (c1llm st.prompt) =
        .next { st with prompt :=
          st.prompt ++ alreadyCalledMsg "estimate_budget" st.requiredTools } :=
      step_already (buildToolDict [budgetTimeoutTool]) iteration st (c1llm st.prompt)
        "estimate_budget" budgetTimeoutTool
        (show strContains "ACTION: estimate_budget\nINPUT: Barcelona,5" "FINAL ANSWER:" = false
          by decide)
        (show (strContains "ACTION: estimate_budget\nINPUT: Barcelona,5" "ACTION:" &&
          strContains "ACTION: estimate_budget\nINPUT: Barcelona,5" "INPUT:") = true by decide)
        (show findActionName "ACTION: estimate_budget\nINPUT: Barcelona,5".data =
          some "estimate_budget" by decide)
        rfl
        (by rw [h]; exact List.not_mem_nil _)
    rw [runFrom_succ_next (buildToolDict [budgetTimeoutTool]) c1llm f iteration st
      { st with prompt := st.prompt ++ alreadyCalledMsg "estimate_budget" st.requiredTools }
      hstep]
    exact ⟨(ih (iteration + 1)
        { st with prompt := st.prompt ++ alreadyCalledMsg "estimate_budget" st.requiredTools }
        h).1,
      (ih (iteration + 1)
        { st with prompt := st.prompt ++ alreadyCalledMsg "estimate_budget" st.requiredTools }
        h).2.1,
      (ih (iteration + 1)
        { st with prompt := st.prompt ++ alreadyCalledMsg "estimate_budget" st.requiredTools }
        h).2.2⟩

/-- C1 (counterexample): in the run where the budget adapter's HTTP call
times out on every dispatch, the loop still records a call-log entry whose
result is the adapter's error string, and the tool is removed from
`requiredTools` — a failed adapter call does mutate the loop state,
contrary to the claim. -/
theorem c1_counterexample :
    (ReactAgent_invoke [budgetTimeoutTool] c1llm "Plan a trip").toolCalls =
      [⟨1, "estimate_budget", "Barcelona,5", "Error: Read timed out."⟩] ∧
    (runFrom (buildToolDict [budgetTimeoutTool]) c1llm max_iterations 0 c1st0).2.1.requiredTools =
      [] := by
  have hstep : step (buildToolDict [budgetTimeoutTool]) 0 c1st0 (c1llm c1st0.prompt) =
      .next (dispatchUpdate 0 c1st0 "estimate_budget"
        (parsedToolInput (c1llm c1st0.prompt)) "Error: Read timed out.") :=
    step_run_ok (buildToolDict [budgetTimeoutTool]) 0 c1st0 (c1llm c1st0.prompt)
      "estimate_budget" "Error: Read timed out." budgetTimeoutTool
      (by decide) (by decide) (by decide) rfl (by decide) rfl
  have hreq1 : (dispatchUpdate 0 c1st0 "estimate_budget"
      (parsedToolInput (c1llm c1st0.prompt)) "Error: Read timed out.").requiredTools = [] := by
    decide
  have hstable := c1_loop_stable 14 1 (dispatchUpdate 0 c1st0 "estimate_budget"
    (parsedToolInput (c1llm c1st0.prompt)) "Error: Read timed out.") hreq1
  have hunfold := runFrom_succ_next (buildToolDict [budgetTimeoutTool]) c1llm 14 0 c1st0
    (dispatchUpdate 0 c1st0 "estimate_budget"
      (parsedToolInput (c1llm c1st0.prompt)) "Error: Read timed out.") hstep
  constructor
  · show (runFrom (buildToolDict [budgetTimeoutTool]) c1llm (14 + 1) 0 c1st0).2.1.callLog = _
    rw [hunfold]
    show (runFrom (buildToolDict [budgetTimeoutTool]) c1llm 14 1
      (dispatchUpdate 0 c1st0 "estimate_budget"
        (parsedToolInput (c1llm c1st0.prompt)) "Error: Read timed out.")).2.1.callLog = _
    rw [hstable.1]
    decide
  · show (runFrom (buildToolDict [budgetTimeoutTool]) c1llm (14 + 1) 0 c1st0).2.1.requiredTools = _
    rw [hunfold]
    show (runFrom (buildToolDict [budgetTimeoutTool]) c1llm 14 1
      (dispatchUpdate 0 c1st0 "estimate_budget"
        (parsedToolInput (c1llm c1st0.prompt)) "Error: Read timed out.")).2.1.requiredTools = _
    exact hstable.2.1

/-- C1 (amended): the MCP adapters convert every failure — a raised
network error or timeout, a non-200 status, malformed input — into a
normally returned `"Error: ..."` string rather than raising; the loop
therefore treats such a call as a successful dispatch, removing the tool
from `requiredTools` and recording the error string in `toolResults` and
`callLog`.  Only a tool invocation that actually raises takes the
correction path that leaves the state unchanged. -/
theorem c1_amended :
    (∀ e, estimate_budget (fun _ _ => HttpOutcome.exn e) "Barcelona,5" = "Error: " ++ e) ∧
    (∀ (code : Nat) (body : BudgetBody), code ≠ 200 →
      estimate_budget (fun _ _ => HttpOutcome.response code body) "Barcelona,5" =
        "Error: Status " ++ toString code) ∧
    (∀ http, estimate_budget http "Barcelona" = "Error: Use format 'destination,days'") ∧
    (∀ (tools : List Tool) (iteration : Nat) (st : RunState) (response a r : String) (t : Tool),
      strContains response "FINAL ANSWER:" = false →
      (strContains response "ACTION:" && strContains response "INPUT:") = true →
      findActionName response.data = some a →
      tools.find? (fun x => x.name == a) = some t →
      a ∈ st.requiredTools →
      t.run (parsedToolInput response) = .ok r →
      step tools iteration st response =
        .next (dispatchUpdate iteration st a (parsedToolInput response) r)) ∧
    (∀ (tools : List Tool) (iteration : Nat) (st : RunState) (response a msg : String) (t : Tool),
      strContains response "FINAL ANSWER:" = false →
      (strContains response "ACTION:" && strContains response "INPUT:") = true →
      findActionName response.data = some a →
      tools.find? (fun x => x.name == a) = some t →
      a ∈ st.requiredTools →
      t.run (parsedToolInput response) = .error msg →
      step tools iteration st response =
        .next { st with prompt := st.prompt ++ parseErrorMsg }) := by
  refine ⟨fun e => rfl, ?_, fun http => rfl, ?_, ?_⟩
  · intro code body h
    have hred : estimate_budget (fun _ _ => HttpOutcome.response code body) "Barcelona,5" =
        if code = 200 then
          "Budget: $" ++ fmt2 body.estimated_budget ++ " USD for " ++
            toString body.days ++ " days in " ++ body.destination
        else "Error: Status " ++ toString code := rfl
    rw [hred, if_neg h]
  · exact fun tools iteration st response a r t hfin hact hfa hreg hmem hrun =>
      step_run_ok tools iteration st response a r t hfin hact hfa hreg hmem hrun
  · exact fun tools iteration st response a msg t hfin hact hfa hreg hmem hrun =>
      step_run_raise tools iteration st response a msg t hfin hact hfa hreg hmem hrun

/-- C1 witness: a timed-out budget call returns the error string, and
dispatching it mutates the state exactly as a successful call would. -/
theorem c1_amended_witness :
    estimate_budget (fun _ _ => HttpOutcome.exn "Read timed out.") "Barcelona,5" =
      "Error: " ++ "Read timed out." ∧
    step [budgetTimeoutTool] 0 c1wst "ACTION: estimate_budget\nINPUT: Barcelona,5" =
      .next (dispatchUpdate 0 c1wst "estimate_budget"
        (parsedToolInput "ACTION: estimate_budget\nINPUT: Barcelona,5")
        "Error: Read timed out.") :=
  ⟨c1_amended.1 "Read timed out.",
    c1_amended.2.2.2.1 [budgetTimeoutTool] 0 c1wst
      "ACTION: estimate_budget\nINPUT: Barcelona,5" "estimate_budget" "Error: Read timed out."
      budgetTimeoutTool (by decide) (by decide) (by decide) rfl (by decide) rfl⟩

/-- C2 (amended): the action token is looked up in the registry by exact,
case-sensitive name equality; a token that differs only in letter case
from a registered canonical name (so the lowercased names agree) fails the
lookup and is handled as an unknown tool — a correction listing the valid
names is appended and nothing is dispatched or mutated. -/
theorem c2_amended (tools : List Tool) (iteration : Nat) (st : RunState) (response a : String)
    (hfin : strContains response "FINAL ANSWER:" = false)
    (hact : (strContains response "ACTION:" && strContains response "INPUT:") = true)
    (hfa : findActionName response.data = some a)
    (_hci : ∃ t ∈ tools, strLower t.name = strLower a)
    (hreg : tools.find? (fun t => t.name == a) = none) :
    step tools iteration st response =
      .next { st with prompt := st.prompt ++ unknownToolMsg a tools } :=
  step_unknown tools iteration st response a hfin hact hfa hreg

/-- C2 (counterexample): with `estimate_budget` registered, the directive
token `ESTIMATE_BUDGET` — identical up to letter case — is answered with
the unknown-tool correction instead of being dispatched. -/
theorem c2_counterexample :
    step [c2Tool] 0 c2st "ACTION: ESTIMATE_BUDGET\nINPUT: 1000,USD,EUR" =
      .next { c2st with prompt := c2st.prompt ++ unknownToolMsg "ESTIMATE_BUDGET" [c2Tool] } ∧
    strLower "ESTIMATE_BUDGET" = strLower "estimate_budget" ∧
    ("ESTIMATE_BUDGET" : String) ≠ "estimate_budget" :=
  ⟨by decide, by decide, by decide⟩

/-- C2 witness: the case-variant token fails the exact lookup even though
a case-insensitive match exists, and only the correction is appended. -/
theorem c2_amended_witness :
    (∃ t ∈ [c2Tool], strLower t.name = strLower "ESTIMATE_BUDGET") ∧
      step [c2Tool] 3 c2st "ACTION: ESTIMATE_BUDGET\nINPUT: 1000,USD,EUR" =
        .next { c2st with prompt := c2st.prompt ++ unknownToolMsg "ESTIMATE_BUDGET" [c2Tool] } :=
  ⟨⟨c2Tool, List.mem_singleton_self _, by decide⟩,
    c2_amended [c2Tool] 3 c2st "ACTION: ESTIMATE_BUDGET\nINPUT: 1000,USD,EUR" "ESTIMATE_BUDGET"
      (by decide) (by decide) (by decide)
      ⟨c2Tool, List.mem_singleton_self _, by decide⟩ rfl⟩
